import Mathlib

/-!
Shallow embedding of the risk-scoring core of the Smart-hostel repository
(`backend/services/mlPredictionService.js`, `backend/services/statsService.js`,
`backend/services/calendarService.js`, `backend/models/StudentStats.js`).

Conventions of the embedding:
* JavaScript numbers are modelled as `ℚ` (all arithmetic in these services is
  exact decimal/integer arithmetic far below the 2^53 range, so rationals are
  a faithful model); values produced by `Math.round` are `ℤ`.
* `Math.round x` is `⌊x + 1/2⌋` (JS rounds half-up), `Math.ceil` is `⌈x⌉`.
* JS `Date` values are epoch milliseconds (`ℤ`); `Date.getDay` for a UTC
  timestamp is `(fdiv t msPerDay + 4) mod 7` (day 0 of the epoch was a
  Thursday); `Date.getDate` uses the standard civil-from-days algorithm.
* Strings ('LOW', 'FLAG', …) are kept as `String`, exactly as in the source.
* Mongoose documents become plain structures; database reads become explicit
  list parameters.
-/

/-- JS `Math.round`: round half toward positive infinity. -/
def jsRound (x : ℚ) : ℤ := ⌊x + 1/2⌋

/-- JS `Math.ceil`. -/
def jsCeil (x : ℚ) : ℤ := ⌈x⌉

/-- Milliseconds per day, the `1000*60*60*24` constant of the source. -/
def msPerDay : ℤ := 1000 * 60 * 60 * 24

/-- `new Date(t).getDay()` for a UTC timestamp `t` in ms: 0 = Sunday. -/
def jsGetDay (t : ℤ) : ℤ := (Int.fdiv t msPerDay + 4) % 7

/-- Civil date from days since 1970-01-01 (Hinnant's algorithm); returns
(year, month, day-of-month). Used to model `Date.getDate()`. -/
def civilFromDays (z0 : ℤ) : ℤ × ℤ × ℤ :=
  let z := z0 + 719468
  let era := Int.fdiv z 146097
  let doe := z - era * 146097
  let yoe := (doe - doe / 1460 + doe / 36524 - doe / 146096) / 365
  let y := yoe + era * 400
  let doy := doe - (365 * yoe + yoe / 4 - yoe / 100)
  let mp := (5 * doy + 2) / 153
  let d := doy - (153 * mp + 2) / 5 + 1
  let m := mp + (if mp < 10 then 3 else -9)
  (y + (if m ≤ 2 then 1 else 0), m, d)

/-- `new Date(t).getDate()` (day of month, 1-31) for a UTC timestamp in ms. -/
def jsGetDate (t : ℤ) : ℤ := (civilFromDays (Int.fdiv t msPerDay)).2.2

/- ===== Feature bundle built by `MLPredictionService.extractFeatures` ===== -/

/-- `features.student` — the slice of `StudentStats` the scorer reads. -/
structure StudentFeatures where
  attendancePercentage : ℚ
  returnReliabilityScore : ℚ
  curfewViolations : ℚ
  lateReturns : ℚ
  totalLeavesApplied : ℚ
  totalLeavesRejected : ℚ
  leavesThisMonth : ℚ
  deriving Repr, DecidableEq

/-- `features.calendar` — the slice of the calendar analysis the scorer and
the decision generator read. -/
structure CalendarFeatures where
  canApply : Bool
  calendarScore : ℚ
  riskModifier : ℚ
  warnings : List String
  deriving Repr, DecidableEq

/-- `features.request`. -/
structure RequestFeatures where
  leaveType : String
  durationDays : ℚ
  isEmergency : Bool
  isMedical : Bool
  isWeekend : Bool
  daysUntilLeave : ℚ
  deriving Repr, DecidableEq

/-- `features.patterns` — the flags `generateDecision` reads. -/
structure PatternFeatures where
  frequencyAnomaly : Bool
  consecutiveLeaves : Bool
  hasRecentRejection : Bool
  deriving Repr, DecidableEq

/-- The full feature bundle passed to `calculateRiskScore` / `generateDecision`. -/
structure Features where
  student : StudentFeatures
  calendar : CalendarFeatures
  request : RequestFeatures
  patterns : PatternFeatures
  deriving Repr, DecidableEq

/- ===== MLPredictionService statics ===== -/

/-- `MLPredictionService.WEIGHTS` (all ten entries of the static table). -/
structure Weights where
  attendance : ℚ
  reliability : ℚ
  violations : ℚ
  frequency : ℚ
  history : ℚ
  calendarConflict : ℚ
  examProximity : ℚ
  duration : ℚ
  leaveType : ℚ
  timing : ℚ
  deriving Repr, DecidableEq

def WEIGHTS : Weights :=
  { attendance := 18/100
    reliability := 15/100
    violations := 12/100
    frequency := 8/100
    history := 7/100
    calendarConflict := 15/100
    examProximity := 10/100
    duration := 5/100
    leaveType := 5/100
    timing := 5/100 }

/-- `MLPredictionService.THRESHOLDS`. -/
structure Thresholds where
  autoApprove : ℤ
  manualReview : ℤ
  highRisk : ℤ
  minConfidence : ℚ
  deriving Repr, DecidableEq

def THRESHOLDS : Thresholds :=
  { autoApprove := 20, manualReview := 60, highRisk := 80, minConfidence := 6/10 }

/- ===== MLPredictionService.calculateRiskScore =====
Each local `xxxRisk` of the source becomes a top-level definition so the
weighted sum can be named in theorem statements. -/

/-- Component 1: `Math.max(0, 100 - attendancePercentage)`. -/
def attendanceRisk (f : Features) : ℚ := max 0 (100 - f.student.attendancePercentage)

/-- Component 2: `Math.max(0, 100 - returnReliabilityScore)`. -/
def reliabilityRisk (f : Features) : ℚ := max 0 (100 - f.student.returnReliabilityScore)

/-- Component 3: `Math.min(100, curfewViolations * 20)`. -/
def violationsRisk (f : Features) : ℚ := min 100 (f.student.curfewViolations * 20)

/-- Component 4: `Math.min(100, leavesThisMonth * 25)`. -/
def frequencyRisk (f : Features) : ℚ := min 100 (f.student.leavesThisMonth * 25)

/-- Component 5: rejection rate in percent, 0 when nothing was applied. -/
def historyRisk (f : Features) : ℚ :=
  if f.student.totalLeavesApplied > 0 then
    f.student.totalLeavesRejected / f.student.totalLeavesApplied * 100
  else 0

/-- Component 6: the calendar score is passed through. -/
def calendarConflictRisk (f : Features) : ℚ := f.calendar.calendarScore

/-- Component 7: `Math.min(100, (durationDays - 1) * 10)`. -/
def durationRisk (f : Features) : ℚ := min 100 ((f.request.durationDays - 1) * 10)

/-- Component 8: sequential reassignment of `leaveTypeRisk` in the source
(`30`, then 10 if emergency, then 5 if medical, then 40 if type `OTHER`). -/
def leaveTypeRisk (f : Features) : ℚ :=
  let r : ℚ := 30
  let r := if f.request.isEmergency then 10 else r
  let r := if f.request.isMedical then 5 else r
  if f.request.leaveType = "OTHER" then 40 else r

/-- Component 9: base 30, −20 for a Fri/Sat start, +30 for a same-day request
else −10 for ≥3 days notice, clamped to [0,100]. -/
def timingRisk (f : Features) : ℚ :=
  let r : ℚ := 30
  let r := if f.request.isWeekend then r - 20 else r
  let r :=
    if f.request.daysUntilLeave < 1 then r + 30
    else if f.request.daysUntilLeave ≥ 3 then r - 10
    else r
  max 0 (min 100 r)

/-- The accumulated `totalScore` of `calculateRiskScore` just before the final
round-and-clamp: the nine weighted components plus the raw calendar
`riskModifier`. -/
def rawTotalScore (f : Features) : ℚ :=
  attendanceRisk f * WEIGHTS.attendance
  + reliabilityRisk f * WEIGHTS.reliability
  + violationsRisk f * WEIGHTS.violations
  + frequencyRisk f * WEIGHTS.frequency
  + historyRisk f * WEIGHTS.history
  + calendarConflictRisk f * WEIGHTS.calendarConflict
  + durationRisk f * WEIGHTS.duration
  + leaveTypeRisk f * WEIGHTS.leaveType
  + timingRisk f * WEIGHTS.timing
  + f.calendar.riskModifier

/-- Result record of `calculateRiskScore`. -/
structure RiskAssessment where
  score : ℤ
  category : String
  deriving Repr, DecidableEq

/-- `MLPredictionService.calculateRiskScore`: clamp the rounded total into
[0,100] and derive the category. -/
def calculateRiskScore (f : Features) : RiskAssessment :=
  let totalScore := max 0 (min 100 (jsRound (rawTotalScore f)))
  { score := totalScore
    category :=
      if totalScore ≥ 60 then "HIGH"
      else if totalScore ≥ 30 then "MEDIUM"
      else "LOW" }

/- ===== MLPredictionService.generateDecision ===== -/

/-- Result record of `generateDecision`. -/
structure Decision where
  action : String
  reason : String
  suggestedResponse : String
  attentionPoints : List String
  deriving Repr, DecidableEq

/-- `MLPredictionService.generateDecision`.  The early `return` for
`!canApply` is the outer `if`; the final warning/pattern appends of the
source apply only on the non-REJECT paths, exactly as in the code. -/
def generateDecision (riskScore : ℤ) (confidenceOverall : ℚ) (f : Features) : Decision :=
  if !f.calendar.canApply then
    { action := "REJECT"
      reason := "Leave period overlaps with blocked dates (exams/restricted period)"
      suggestedResponse := "Your leave request overlaps with a restricted period. Please choose different dates."
      attentionPoints := f.calendar.warnings }
  else
    let d : Decision :=
      if riskScore ≤ THRESHOLDS.autoApprove ∧ confidenceOverall ≥ THRESHOLDS.minConfidence then
        { action := "AUTO_APPROVE"
          reason := "Low risk profile with high confidence"
          suggestedResponse := "Leave approved. Have a safe trip!"
          attentionPoints := [] }
      else if riskScore ≤ THRESHOLDS.autoApprove then
        { action := "MANUAL_REVIEW"
          reason := "Low risk but insufficient data for auto-approval"
          suggestedResponse := "Leave request is under review."
          attentionPoints := ["Limited history available - verify student details"] }
      else if riskScore > THRESHOLDS.highRisk then
        { action := "FLAG"
          reason := "High risk score - requires careful review"
          suggestedResponse := "Your leave request requires additional review."
          attentionPoints :=
            (if f.student.attendancePercentage < 75 then
              ["Low attendance: " ++ toString f.student.attendancePercentage ++ "%"] else [])
            ++ (if f.student.lateReturns > 0 then
              [toString f.student.lateReturns ++ " late returns from previous leaves"] else [])
            ++ (if f.student.curfewViolations > 0 then
              [toString f.student.curfewViolations ++ " curfew violations"] else [])
            ++ (if f.patterns.frequencyAnomaly then
              ["Unusually high leave frequency this month"] else []) }
      else if riskScore > THRESHOLDS.manualReview then
        { action := "FLAG"
          reason := "Moderate to high risk - needs review"
          suggestedResponse := "Your leave request is being reviewed by the warden."
          attentionPoints := ["Review student history before approval"] }
      else
        { action := "MANUAL_REVIEW"
          reason := "Moderate risk - standard review process"
          suggestedResponse := "Leave request submitted. You will be notified once reviewed."
          attentionPoints := [] }
    { d with attentionPoints :=
        d.attentionPoints
        ++ (if f.calendar.warnings.length > 0 then f.calendar.warnings else [])
        ++ (if f.patterns.consecutiveLeaves then ["This is a consecutive leave request"] else [])
        ++ (if f.patterns.hasRecentRejection then ["Recent leave was rejected - review reason"] else []) }

/- ===== CalendarService.analyzeLeaveDates ===== -/

/-- An `AcademicCalendar` document (the fields `analyzeLeaveDates` reads).
Dates are epoch milliseconds. -/
structure CalendarEvent where
  title : String
  eventType : String
  leavePolicy : String
  riskModifier : ℚ
  startDate : ℤ
  endDate : ℤ
  isActive : Bool
  affectsHostels : List String
  affectsCourses : List String
  affectsYears : List ℚ
  priority : ℚ
  deriving Repr, DecidableEq

/-- The optional `student` scope argument (`hostelBlock`, `course`, `year`);
`none` models an absent / falsy JS value. -/
structure StudentScope where
  hostelBlock : Option String
  course : Option String
  year : Option ℚ
  deriving Repr, DecidableEq

/-- Entry of `blockedDates` / `flaggedDates`. -/
structure DateEntry where
  event : String
  fromDate : ℤ
  toDate : ℤ
  deriving Repr, DecidableEq

/-- Entry of `overlappingEvents` (the `dates` display string of the source is
kept as the raw date pair). -/
structure OverlapEntry where
  title : String
  eventType : String
  policy : String
  dates : ℤ × ℤ
  deriving Repr, DecidableEq

/-- The `analysis` object of `CalendarService.analyzeLeaveDates`. -/
structure CalendarAnalysis where
  canApply : Bool
  riskModifier : ℚ
  warnings : List String
  blockedDates : List DateEntry
  flaggedDates : List DateEntry
  recommendation : String
  overlappingEvents : List OverlapEntry
  calendarScore : ℚ
  deriving Repr, DecidableEq

/-- The initial `analysis` value. -/
def initialAnalysis : CalendarAnalysis :=
  { canApply := true
    riskModifier := 0
    warnings := []
    blockedDates := []
    flaggedDates := []
    recommendation := "APPROVE"
    overlappingEvents := []
    calendarScore := 0 }

/-- One iteration of the `for (const event of relevantEvents)` loop:
record the overlap entry, apply the `leavePolicy` switch, then accumulate
the event's `riskModifier`. -/
def applyEvent (a0 : CalendarAnalysis) (e : CalendarEvent) : CalendarAnalysis :=
  let a := { a0 with overlappingEvents :=
      a0.overlappingEvents ++ [OverlapEntry.mk e.title e.eventType e.leavePolicy (e.startDate, e.endDate)] }
  let a :=
    if e.leavePolicy = "BLOCKED" then
      { a with canApply := false
               recommendation := "REJECT"
               blockedDates := a.blockedDates ++ [DateEntry.mk e.title e.startDate e.endDate]
               warnings := a.warnings ++ ["❌ Leave blocked during \"" ++ e.title ++ "\""]
               calendarScore := 100 }
    else if e.leavePolicy = "FLAGGED" then
      { a with recommendation := "FLAG"
               flaggedDates := a.flaggedDates ++ [DateEntry.mk e.title e.startDate e.endDate]
               warnings := a.warnings ++ ["⚠️ Leave during \"" ++ e.title ++ "\" requires manual approval"]
               calendarScore := max a.calendarScore 70 }
    else if e.leavePolicy = "DISCOURAGED" then
      { a with warnings := a.warnings ++ ["⚡ Leave during \"" ++ e.title ++ "\" is discouraged"]
               calendarScore := max a.calendarScore 40 }
    else if e.leavePolicy = "ENCOURAGED" then
      { a with calendarScore := min a.calendarScore 10 }
    else a
  { a with riskModifier := a.riskModifier + e.riskModifier }

/-- The whole event loop, starting from `initialAnalysis`. -/
def processEvents (events : List CalendarEvent) : CalendarAnalysis :=
  events.foldl applyEvent initialAnalysis

/-- The post-loop steps of `analyzeLeaveDates`: clamp `riskModifier` to
[-50,50], then upgrade the recommendation for clear calendars / flag
high calendar scores. -/
def finishAnalysis (a0 : CalendarAnalysis) : CalendarAnalysis :=
  let a := { a0 with riskModifier := max (-50) (min 50 a0.riskModifier) }
  if a.canApply ∧ a.calendarScore ≤ 20 then { a with recommendation := "AUTO_APPROVE" }
  else if a.calendarScore > 50 ∧ a.canApply then { a with recommendation := "FLAG" }
  else a

/-- Event loop plus post-loop steps, over an already-filtered list of
relevant events. -/
def analyzeCore (events : List CalendarEvent) : CalendarAnalysis :=
  finishAnalysis (processEvents events)

/-- Stable insertion sort (insert before the first strictly-later element),
used to model the stable sorts of the source: the database sort of
`getEventsInRange` and the JS `Array.prototype.sort` calls. `lt x y` must
mean "x sorts strictly before y". -/
def insertBy {α : Type} (lt : α → α → Bool) (x : α) : List α → List α
  | [] => [x]
  | y :: ys => if lt x y then x :: y :: ys else y :: insertBy lt x ys

def sortBy {α : Type} (lt : α → α → Bool) : List α → List α
  | [] => []
  | x :: xs => insertBy lt x (sortBy lt xs)

/-- Strictly-before test for the `priority: -1, startDate: 1` sort order. -/
def eventBefore (x y : CalendarEvent) : Bool :=
  x.priority > y.priority || (x.priority = y.priority && x.startDate < y.startDate)

/-- `AcademicCalendar.getEventsInRange`: active events whose range overlaps
`[startDate, endDate]`, sorted by priority descending then start ascending. -/
def getEventsInRange (events : List CalendarEvent) (startDate endDate : ℤ) :
    List CalendarEvent :=
  sortBy eventBefore
    (events.filter fun e => e.isActive && e.startDate ≤ endDate && e.endDate ≥ startDate)

/-- The scope filter of `analyzeLeaveDates`: each `affects*` list rejects the
event only when it is non-empty, the student supplies the value, and the
value is not in the list. -/
def eventAppliesTo (student : StudentScope) (e : CalendarEvent) : Bool :=
  (match student.hostelBlock with
   | some hb => !(e.affectsHostels.length > 0) || e.affectsHostels.contains hb
   | none => true)
  && (match student.course with
   | some c => !(e.affectsCourses.length > 0) || e.affectsCourses.contains c
   | none => true)
  && (match student.year with
   | some y => !(e.affectsYears.length > 0) || e.affectsYears.contains y
   | none => true)

/-- The `relevantEvents` list of `analyzeLeaveDates`. -/
def relevantEvents (events : List CalendarEvent) (fromDate toDate : ℤ)
    (student : StudentScope) : List CalendarEvent :=
  (getEventsInRange events fromDate toDate).filter (eventAppliesTo student)

/-- `CalendarService.analyzeLeaveDates`, with the database contents passed in
as the `events` list. -/
def analyzeLeaveDates (events : List CalendarEvent) (fromDate toDate : ℤ)
    (student : StudentScope) : CalendarAnalysis :=
  analyzeCore (relevantEvents events fromDate toDate student)

/-- How `MLPredictionService.extractFeatures` projects a calendar analysis
into `features.calendar`. -/
def calendarFeaturesOfAnalysis (a : CalendarAnalysis) : CalendarFeatures :=
  { canApply := a.canApply
    calendarScore := a.calendarScore
    riskModifier := a.riskModifier
    warnings := a.warnings }

/- ===== StatsService (statsService.js) and the StudentStats model ===== -/

/-- `componentScores` sub-document of `StudentStats`. -/
structure ComponentScores where
  attendance : ℤ
  reliability : ℤ
  violations : ℤ
  frequency : ℤ
  history : ℤ
  deriving Repr, DecidableEq

/-- A `StudentStats` document (`backend/models/StudentStats.js`). -/
structure StudentStatsRec where
  totalDays : ℚ
  presentDays : ℚ
  absentDays : ℚ
  lateDays : ℚ
  attendancePercentage : ℚ
  totalLeavesApplied : ℚ
  totalLeavesApproved : ℚ
  totalLeavesRejected : ℚ
  totalLeavesAutoApproved : ℚ
  totalLeavesFlagged : ℚ
  totalLeaveDaysTaken : ℚ
  onTimeReturns : ℚ
  lateReturns : ℚ
  totalLateReturnHours : ℚ
  returnReliabilityScore : ℚ
  curfewViolations : ℚ
  totalCurfewViolationMinutes : ℚ
  unauthorizedAbsences : ℚ
  avgLeaveDuration : ℚ
  avgLeaveFrequency : ℚ
  frequentLeaveType : Option String
  lastLeaveDate : Option ℤ
  leavesThisMonth : ℚ
  leavesThisSemester : ℚ
  overallRiskScore : ℚ
  riskCategory : String
  componentScores : ComponentScores

/-- The schema defaults of `StudentStats.js` — the document created by
`StatsService.initializeStats` for a brand-new student. -/
def defaultStudentStats : StudentStatsRec :=
  { totalDays := 0, presentDays := 0, absentDays := 0, lateDays := 0
    attendancePercentage := 100
    totalLeavesApplied := 0, totalLeavesApproved := 0, totalLeavesRejected := 0
    totalLeavesAutoApproved := 0, totalLeavesFlagged := 0, totalLeaveDaysTaken := 0
    onTimeReturns := 0, lateReturns := 0, totalLateReturnHours := 0
    returnReliabilityScore := 100
    curfewViolations := 0, totalCurfewViolationMinutes := 0, unauthorizedAbsences := 0
    avgLeaveDuration := 0, avgLeaveFrequency := 0
    frequentLeaveType := none, lastLeaveDate := none
    leavesThisMonth := 0, leavesThisSemester := 0
    overallRiskScore := 0, riskCategory := "LOW"
    componentScores := ⟨0, 0, 0, 0, 0⟩ }

/-- An `Attendance` document (the fields `updateAttendanceStats` reads). -/
structure AttendanceRecord where
  status : String
  curfewViolation : Bool
  violationMinutes : ℚ
  deriving Repr, DecidableEq

/-- A `Leave` document (the fields `StatsService` and `detectPatterns` read);
dates are epoch milliseconds, `returnedOnTime = none` models the JS `null`. -/
structure LeaveRecord where
  status : String
  leaveType : String
  fromDateTime : ℤ
  toDateTime : ℤ
  createdAt : ℤ
  returnedOnTime : Option Bool
  lateReturnHours : ℚ
  deriving Repr, DecidableEq

/-- `StatsService.updateAttendanceStats`: recompute the attendance block of
the stats document from the full attendance history. -/
def updateAttendanceStats (s : StudentStatsRec) (attendance : List AttendanceRecord) :
    StudentStatsRec :=
  let totalDays := attendance.length
  let presentDays := (attendance.filter fun a => a.status = "PRESENT").length
  let absentDays := (attendance.filter fun a => a.status = "ABSENT").length
  let lateDays := (attendance.filter fun a => a.status = "LATE").length
  let curfewViolations := (attendance.filter fun a => a.curfewViolation).length
  let totalCurfewViolationMinutes := (attendance.map fun a => a.violationMinutes).sum
  let attendancePercentage : ℚ :=
    if totalDays > 0 then ((jsRound (((presentDays : ℚ) / (totalDays : ℚ)) * 100) : ℤ) : ℚ)
    else 100
  { s with totalDays := totalDays, presentDays := presentDays, absentDays := absentDays
           lateDays := lateDays, curfewViolations := curfewViolations
           totalCurfewViolationMinutes := totalCurfewViolationMinutes
           attendancePercentage := attendancePercentage }

/-- `Math.ceil((to - from)/msPerDay) + 1` of `updateLeaveStats`. -/
def leaveDays (l : LeaveRecord) : ℤ :=
  jsCeil (((l.toDateTime - l.fromDateTime : ℤ) : ℚ) / (msPerDay : ℚ)) + 1

/-- Sum of day-gaps between consecutive elements (already sorted by
`createdAt`), in days. -/
def sumGaps : List LeaveRecord → ℚ
  | a :: b :: rest => ((b.createdAt - a.createdAt : ℤ) : ℚ) / (msPerDay : ℚ) + sumGaps (b :: rest)
  | _ => 0

/-- Insertion-ordered key list of a JS object built by repeated
`counts[k] = (counts[k] || 0) + 1` (first-occurrence order). -/
def keysInOrder : List String → List String
  | [] => []
  | x :: xs => x :: (keysInOrder xs).filter (fun y => y ≠ x)

/-- `StatsService.updateLeaveStats`: recompute the leave block of the stats
document from the full leave history. `thisMonthStart` and `semesterStart`
stand for the two window boundaries the source derives from `new Date()`. -/
def updateLeaveStats (s : StudentStatsRec) (leaves : List LeaveRecord)
    (thisMonthStart semesterStart : ℤ) : StudentStatsRec :=
  let totalLeavesApplied := leaves.length
  let totalLeavesApproved :=
    (leaves.filter fun l => l.status = "APPROVED" ∨ l.status = "AUTO_APPROVED").length
  let totalLeavesRejected := (leaves.filter fun l => l.status = "REJECTED").length
  let totalLeavesAutoApproved := (leaves.filter fun l => l.status = "AUTO_APPROVED").length
  let totalLeavesFlagged := (leaves.filter fun l => l.status = "FLAGGED").length
  let approvedLeaves := leaves.filter fun l => l.status = "APPROVED" ∨ l.status = "AUTO_APPROVED"
  let totalLeaveDaysTaken : ℤ := approvedLeaves.foldl (fun sum l => sum + max 1 (leaveDays l)) 0
  let completedLeaves := leaves.filter fun l => l.returnedOnTime ≠ none
  let onTimeReturns := (completedLeaves.filter fun l => l.returnedOnTime = some true).length
  let lateReturns := (completedLeaves.filter fun l => ¬ (l.returnedOnTime = some true)).length
  let totalLateReturnHours := (leaves.map fun l => l.lateReturnHours).sum
  let returnReliabilityScore : ℚ :=
    if completedLeaves.length > 0 then
      ((jsRound (((onTimeReturns : ℚ) / (completedLeaves.length : ℚ)) * 100) : ℤ) : ℚ)
    else 100
  let avgLeaveDuration : ℚ :=
    if approvedLeaves.length > 0 then
      ((jsRound (((totalLeaveDaysTaken : ℚ) / (approvedLeaves.length : ℚ)) * 10) : ℤ) : ℚ) / 10
    else 0
  let avgLeaveFrequency : ℚ :=
    if leaves.length ≥ 2 then
      let sortedLeaves := sortBy (fun a b : LeaveRecord => a.createdAt < b.createdAt) leaves
      ((jsRound (sumGaps sortedLeaves / ((leaves.length : ℚ) - 1)) : ℤ) : ℚ)
    else 0
  let typeCount := fun (t : String) => (leaves.filter fun l => l.leaveType = t).length
  let frequentLeaveType : Option String :=
    match keysInOrder (leaves.map fun l => l.leaveType) with
    | [] => none
    | k :: ks => some (ks.foldl (fun a b => if typeCount a > typeCount b then a else b) k)
  let leavesThisMonth := (leaves.filter fun l => l.createdAt ≥ thisMonthStart).length
  let leavesThisSemester := (leaves.filter fun l => l.createdAt ≥ semesterStart).length
  let lastLeave := (sortBy (fun a b : LeaveRecord => a.createdAt > b.createdAt) leaves).head?
  { s with totalLeavesApplied := totalLeavesApplied
           totalLeavesApproved := totalLeavesApproved
           totalLeavesRejected := totalLeavesRejected
           totalLeavesAutoApproved := totalLeavesAutoApproved
           totalLeavesFlagged := totalLeavesFlagged
           totalLeaveDaysTaken := (totalLeaveDaysTaken : ℚ)
           onTimeReturns := onTimeReturns
           lateReturns := lateReturns
           totalLateReturnHours := totalLateReturnHours
           returnReliabilityScore := returnReliabilityScore
           avgLeaveDuration := avgLeaveDuration
           avgLeaveFrequency := avgLeaveFrequency
           frequentLeaveType := frequentLeaveType
           leavesThisMonth := leavesThisMonth
           leavesThisSemester := leavesThisSemester
           lastLeaveDate := lastLeave.map fun l => l.createdAt }

/-- Result of `StatsService.calculateOverallRisk`. -/
structure OverallRisk where
  riskScore : ℤ
  riskCategory : String
  componentScores : ComponentScores

/-- `StatsService.calculateOverallRisk`: the *other* weighted risk formula of
the repository (weights 0.30/0.25/0.20/0.15/0.10, violations ×15,
frequency ×20, late-return history ×20). -/
def calculateOverallRisk (stats : StudentStatsRec) : OverallRisk :=
  let attendanceRisk := max 0 (100 - stats.attendancePercentage)
  let reliabilityRisk := max 0 (100 - stats.returnReliabilityScore)
  let violationsRisk := min 100 (stats.curfewViolations * 15)
  let frequencyRisk := min 100 (stats.leavesThisMonth * 20)
  let historyRisk := min 100 (stats.lateReturns * 20)
  let riskScore := jsRound
    (attendanceRisk * (30/100) + reliabilityRisk * (25/100) + violationsRisk * (20/100)
      + frequencyRisk * (15/100) + historyRisk * (10/100))
  { riskScore := riskScore
    riskCategory :=
      if riskScore ≥ 60 then "HIGH"
      else if riskScore ≥ 30 then "MEDIUM"
      else "LOW"
    componentScores :=
      ⟨jsRound attendanceRisk, jsRound reliabilityRisk, jsRound violationsRisk,
        jsRound frequencyRisk, jsRound historyRisk⟩ }

/-- The `findOneAndUpdate` at the end of `calculateOverallRisk`: write the
risk result back into the stats document. -/
def applyOverallRisk (s : StudentStatsRec) : StudentStatsRec :=
  let r := calculateOverallRisk s
  { s with overallRiskScore := (r.riskScore : ℚ)
           riskCategory := r.riskCategory
           componentScores := r.componentScores }

/-- How `MLPredictionService.extractFeatures` projects a stats document into
`features.student` (the `?? default` fallbacks of the source never fire for
an existing document, so this is the plain projection). -/
def studentFeaturesOfStats (s : StudentStatsRec) : StudentFeatures :=
  { attendancePercentage := s.attendancePercentage
    returnReliabilityScore := s.returnReliabilityScore
    curfewViolations := s.curfewViolations
    lateReturns := s.lateReturns
    totalLeavesApplied := s.totalLeavesApplied
    totalLeavesRejected := s.totalLeavesRejected
    leavesThisMonth := s.leavesThisMonth }

/- ===== MLPredictionService.detectPatterns ===== -/

/-- One entry of the `patterns.detected` array. -/
structure DetectedPattern where
  patternType : String
  description : String
  severity : String
  deriving Repr, DecidableEq

/-- The `patterns` result object of `detectPatterns`. -/
structure PatternsResult where
  detected : List DetectedPattern
  riskLevel : String
  deriving Repr, DecidableEq

/-- The `weekendExtenders` filter: leaves whose `fromDateTime` falls on a
Monday (`getDay() === 1`) or a Friday (`getDay() === 5`). -/
def weekendExtenders (leaves : List LeaveRecord) : List LeaveRecord :=
  leaves.filter fun l => jsGetDay l.fromDateTime = 1 ∨ jsGetDay l.fromDateTime = 5

/-- The `backToBackCount` loop: adjacent pairs of the sorted list whose gap
`(next.fromDateTime - prev.toDateTime) / msPerDay` is at most 3 days. -/
def countBackToBack : List LeaveRecord → ℕ
  | a :: b :: rest =>
    (if ((b.fromDateTime - a.toDateTime : ℤ) : ℚ) / (msPerDay : ℚ) ≤ 3 then 1 else 0)
      + countBackToBack (b :: rest)
  | _ => 0

/-- The WEEKEND_EXTENSION entry pushed by pattern 1. -/
def weekendExtensionPattern : DetectedPattern :=
  DetectedPattern.mk "WEEKEND_EXTENSION"
    "Frequent leaves on Mondays/Fridays to extend weekends" "MEDIUM"

/-- Pattern 1 (Monday/Friday weekend extension): pushed when at least 3
leaves of the sample start on Monday/Friday and they are at least 50% of
the sample (`weekendExtenders.length >= leaves.length * 0.5`). -/
def wePatternList (leaves : List LeaveRecord) : List DetectedPattern :=
  if 3 ≤ (weekendExtenders leaves).length ∧
      ((weekendExtenders leaves).length : ℚ) ≥ (leaves.length : ℚ) * (5/10) then
    [weekendExtensionPattern]
  else []

/-- Pattern 2 (clustering on the same day of month): the largest bucket of
the `monthlyPattern` day-of-month counts. -/
def maxCluster (leaves : List LeaveRecord) : ℕ :=
  let dates := leaves.map fun l => jsGetDate l.fromDateTime
  ((dates.map fun d => (dates.filter fun d2 => d2 = d).length).foldl max 0)

def dcPatternList (leaves : List LeaveRecord) : List DetectedPattern :=
  if 3 ≤ maxCluster leaves then
    [DetectedPattern.mk "DATE_CLUSTERING"
      "Repeated leaves around same dates each month" "LOW"]
  else []

/-- Pattern 3 (increasing frequency month over month). -/
def incPatternList (now : ℤ) (leaves : List LeaveRecord) : List DetectedPattern :=
  let recentMonthLeaves := (leaves.filter fun l => l.createdAt ≥ now - 30 * msPerDay).length
  let previousMonthLeaves := (leaves.filter fun l =>
      l.createdAt ≥ now - 60 * msPerDay ∧ l.createdAt < now - 30 * msPerDay).length
  if recentMonthLeaves > previousMonthLeaves * 2 ∧ 3 ≤ recentMonthLeaves then
    [DetectedPattern.mk "INCREASING_FREQUENCY"
      "Leave frequency has doubled compared to previous month" "MEDIUM"]
  else []

/-- Pattern 4 (back-to-back leaves over the chronologically sorted sample). -/
def btbPatternList (leaves : List LeaveRecord) : List DetectedPattern :=
  if 2 ≤ countBackToBack
      (sortBy (fun a b : LeaveRecord => a.fromDateTime < b.fromDateTime) leaves) then
    [DetectedPattern.mk "BACK_TO_BACK"
      "Multiple consecutive or near-consecutive leaves" "HIGH"]
  else []

/-- The `patterns.detected` array: the four pattern checks push in source
order. -/
def detectedList (now : ℤ) (leaves : List LeaveRecord) : List DetectedPattern :=
  wePatternList leaves ++ dcPatternList leaves ++ incPatternList now leaves
    ++ btbPatternList leaves

/-- `MLPredictionService.detectPatterns` over the sampled leave list (the
source samples the student's 20 most recent leaves; `leaves` is that sample,
`now` is `Date.now()`). Fewer than 2 leaves short-circuit to an empty
result. -/
def detectPatterns (now : ℤ) (leaves : List LeaveRecord) : PatternsResult :=
  if leaves.length < 2 then { detected := [], riskLevel := "NONE" }
  else
    let detected := detectedList now leaves
    { detected := detected
      riskLevel :=
        if detected.any fun p => p.severity = "HIGH" then "HIGH"
        else if detected.any fun p => p.severity = "MEDIUM" then "MEDIUM"
        else if detected.length > 0 then "LOW"
        else "NONE" }

/- ===== Concrete inputs used by counterexamples and witnesses ===== -/

/-- The §8 spec scenario: attendance 60%, 2 curfew violations, 4 leaves this
month, leave type OTHER requested same-day, no calendar conflicts, all other
statistics at the benefit-of-the-doubt defaults (a 1-day leave).
`frequencyAnomaly` is `leavesThisMonth > 3` as `extractFeatures` derives it. -/
def featuresScenario : Features :=
  { student :=
      { attendancePercentage := 60, returnReliabilityScore := 100, curfewViolations := 2
        lateReturns := 0, totalLeavesApplied := 0, totalLeavesRejected := 0
        leavesThisMonth := 4 }
    calendar := { canApply := true, calendarScore := 0, riskModifier := 0, warnings := [] }
    request :=
      { leaveType := "OTHER", durationDays := 1, isEmergency := false, isMedical := false
        isWeekend := false, daysUntilLeave := 0 }
    patterns := { frequencyAnomaly := true, consecutiveLeaves := false, hasRecentRejection := false } }

/-- A student whose only blemish is one curfew violation. -/
def statsOneViolation : StudentStatsRec := { defaultStudentStats with curfewViolations := 1 }

/-- Feature bundle for that student making a fully neutral request (REGULAR
1-day leave, 5 days notice, weekday start, clear calendar). -/
def featuresOneViolation : Features :=
  { student := studentFeaturesOfStats statsOneViolation
    calendar := { canApply := true, calendarScore := 0, riskModifier := 0, warnings := [] }
    request :=
      { leaveType := "REGULAR", durationDays := 1, isEmergency := false, isMedical := false
        isWeekend := false, daysUntilLeave := 5 }
    patterns := { frequencyAnomaly := false, consecutiveLeaves := false, hasRecentRejection := false } }

/-- A student scope with no hostel/course/year values (every event applies). -/
def noScope : StudentScope := { hostelBlock := none, course := none, year := none }

/-- An active BLOCKED event covering days 0-10 of the epoch. -/
def blockedEvent : CalendarEvent :=
  { title := "Mid-Semester Examinations", eventType := "EXAM", leavePolicy := "BLOCKED"
    riskModifier := 0, startDate := 0, endDate := 10 * msPerDay, isActive := true
    affectsHostels := [], affectsCourses := [], affectsYears := [], priority := 5 }

/-- An active FLAGGED event, starting slightly later than `blockedEvent`. -/
def flaggedEvent : CalendarEvent :=
  { title := "Exam Preparation Week", eventType := "EXAM_PREP", leavePolicy := "FLAGGED"
    riskModifier := 0, startDate := 1, endDate := 10 * msPerDay, isActive := true
    affectsHostels := [], affectsCourses := [], affectsYears := [], priority := 5 }

/-- An active ENCOURAGED event, starting later still. -/
def encouragedEvent : CalendarEvent :=
  { title := "Summer Vacation", eventType := "VACATION", leavePolicy := "ENCOURAGED"
    riskModifier := 0, startDate := 2, endDate := 10 * msPerDay, isActive := true
    affectsHostels := [], affectsCourses := [], affectsYears := [], priority := 5 }

/-- An active DISCOURAGED event. -/
def discouragedEvent : CalendarEvent :=
  { title := "Sports Week", eventType := "EVENT", leavePolicy := "DISCOURAGED"
    riskModifier := 0, startDate := 3, endDate := 10 * msPerDay, isActive := true
    affectsHostels := [], affectsCourses := [], affectsYears := [], priority := 5 }

/-- The BLOCKED-then-FLAGGED-then-ENCOURAGED run of the event loop (the three
events overlap the requested window [0, 3 days] and share a priority, so the
`getEventsInRange` sort keeps them in start-date order). -/
def analysisBFE : CalendarAnalysis :=
  analyzeLeaveDates [blockedEvent, flaggedEvent, encouragedEvent] 0 (3 * msPerDay) noScope

/-- A leave record template for pattern-detection inputs. -/
def mkLeave (fromDay : ℤ) : LeaveRecord :=
  { status := "PENDING", leaveType := "REGULAR", fromDateTime := fromDay * msPerDay
    toDateTime := fromDay * msPerDay, createdAt := 0, returnedOnTime := none
    lateReturnHours := 0 }

/-- Five leaves starting on 1970-01-02 (Fri), 01-09 (Fri), 01-16 (Fri),
01-05 (Mon) and 01-12 (Mon). -/
def fiveWeekendLeaves : List LeaveRecord :=
  [mkLeave 1, mkLeave 8, mkLeave 15, mkLeave 4, mkLeave 11]

/-- The scenario features with a vetoing calendar slice (canApply = false). -/
def featuresVeto : Features :=
  { featuresScenario with
    calendar := { canApply := false, calendarScore := 100, riskModifier := 0, warnings := [] } }

/- ===================== Theorems ===================== -/

/- ----- shared helper lemmas ----- -/

theorem length_filter_split {α : Type} (p : α → Prop) [DecidablePred p] :
    ∀ l : List α, (l.filter fun x => p x).length + (l.filter fun x => ¬ p x).length = l.length
  | [] => rfl
  | x :: l => by
    have ih := length_filter_split p l
    by_cases h : p x <;> simp [List.filter_cons, h, decide_not] at ih ⊢ <;> omega

/- ----- C1 ----- -/

/-- C1 counterexample: on the exact feature bundle of the spec scenario
(attendance 60, 2 violations, 4 leaves this month, OTHER leave requested
same-day, clear calendar, all other statistics at their defaults) the code
produces a risk score of 25, not a score above 60, and `generateDecision`
returns MANUAL_REVIEW with no attention points rather than FLAG with
low-attendance and violation notes. -/
theorem C1_scenario_counterexample :
    (calculateRiskScore featuresScenario).score = 25 ∧
    ¬ (calculateRiskScore featuresScenario).score > 60 ∧
    (generateDecision (calculateRiskScore featuresScenario).score (6/10) featuresScenario).action
      = "MANUAL_REVIEW" ∧
    (generateDecision (calculateRiskScore featuresScenario).score (6/10) featuresScenario).attentionPoints
      = [] := by
  norm_num [calculateRiskScore, rawTotalScore, attendanceRisk, reliabilityRisk, violationsRisk,
    frequencyRisk, historyRisk, calendarConflictRisk, durationRisk, leaveTypeRisk, timingRisk,
    WEIGHTS, THRESHOLDS, jsRound, generateDecision, featuresScenario]

/-- C1 (amended): for the spec scenario's feature bundle — student with
attendancePercentage 60, 2 curfew violations, 4 leaves this month, leave
type OTHER requested same-day, no calendar conflicts and every other
statistic at its benefit-of-the-doubt default — `calculateRiskScore` yields
a total risk score of 25 (category LOW, not above 60), and for every
confidence value `generateDecision` returns action MANUAL_REVIEW with an
empty attention-point list. -/
theorem C1_scenario_amended (conf : ℚ) :
    (calculateRiskScore featuresScenario).score = 25 ∧
    (calculateRiskScore featuresScenario).category = "LOW" ∧
    (generateDecision 25 conf featuresScenario).action = "MANUAL_REVIEW" ∧
    (generateDecision 25 conf featuresScenario).attentionPoints = [] := by
  norm_num [calculateRiskScore, rawTotalScore, attendanceRisk, reliabilityRisk, violationsRisk,
    frequencyRisk, historyRisk, calendarConflictRisk, durationRisk, leaveTypeRisk, timingRisk,
    WEIGHTS, THRESHOLDS, jsRound, generateDecision, featuresScenario]

/- ----- C2 ----- -/

/-- C2 counterexample: the nine weights `calculateRiskScore` actually uses
sum to 0.90, not 1.00. -/
theorem C2_weights_counterexample :
    WEIGHTS.attendance + WEIGHTS.reliability + WEIGHTS.violations + WEIGHTS.calendarConflict
      + WEIGHTS.duration + WEIGHTS.frequency + WEIGHTS.history + WEIGHTS.leaveType
      + WEIGHTS.timing = 9/10 ∧
    ¬ (WEIGHTS.attendance + WEIGHTS.reliability + WEIGHTS.violations + WEIGHTS.calendarConflict
      + WEIGHTS.duration + WEIGHTS.frequency + WEIGHTS.history + WEIGHTS.leaveType
      + WEIGHTS.timing = 1) := by
  norm_num [WEIGHTS]

/-- C2 (amended): the nine components combined by `calculateRiskScore` carry
exactly the weights attendance 0.18, reliability 0.15, violations 0.12,
calendarConflict 0.15, duration 0.05, frequency 0.08, history 0.07,
leaveType 0.05 and timing 0.05, but these nine sum to 0.90; the WEIGHTS
table only reaches 1.00 together with its `examProximity` entry (0.10),
which `calculateRiskScore` never uses. -/
theorem C2_weights_amended :
    WEIGHTS.attendance = 18/100 ∧ WEIGHTS.reliability = 15/100 ∧ WEIGHTS.violations = 12/100 ∧
    WEIGHTS.calendarConflict = 15/100 ∧ WEIGHTS.duration = 5/100 ∧ WEIGHTS.frequency = 8/100 ∧
    WEIGHTS.history = 7/100 ∧ WEIGHTS.leaveType = 5/100 ∧ WEIGHTS.timing = 5/100 ∧
    WEIGHTS.attendance + WEIGHTS.reliability + WEIGHTS.violations + WEIGHTS.calendarConflict
      + WEIGHTS.duration + WEIGHTS.frequency + WEIGHTS.history + WEIGHTS.leaveType
      + WEIGHTS.timing = 9/10 ∧
    WEIGHTS.attendance + WEIGHTS.reliability + WEIGHTS.violations + WEIGHTS.calendarConflict
      + WEIGHTS.duration + WEIGHTS.frequency + WEIGHTS.history + WEIGHTS.leaveType
      + WEIGHTS.timing + WEIGHTS.examProximity = 1 := by
  norm_num [WEIGHTS]

/- ----- C5 ----- -/

/-- C5: the two risk-scoring call paths are not equivalent. In
`calculateRiskScore` the violations component is `min(100, violations*20)`
(here 20 for one violation) weighted by `WEIGHTS.violations = 0.12`, while
`calculateOverallRisk` computes `min(100, violations*15)` (here 15) with
weight 0.20; for the student `statsOneViolation` making a fully neutral
request, the two paths return the different scores 5 and 3. -/
theorem C5_divergent_risk_paths :
    violationsRisk featuresOneViolation = 20 ∧ WEIGHTS.violations = 12/100 ∧
    (calculateOverallRisk statsOneViolation).componentScores.violations = 15 ∧
    (calculateRiskScore featuresOneViolation).score = 5 ∧
    (calculateOverallRisk statsOneViolation).riskScore = 3 ∧
    (calculateRiskScore featuresOneViolation).score
      ≠ (calculateOverallRisk statsOneViolation).riskScore := by
  have hlt : ¬ (("REGULAR" : String) = "OTHER") := by decide
  norm_num [violationsRisk, WEIGHTS, calculateOverallRisk, statsOneViolation, defaultStudentStats,
    calculateRiskScore, rawTotalScore, attendanceRisk, reliabilityRisk, frequencyRisk, historyRisk,
    calendarConflictRisk, durationRisk, leaveTypeRisk, timingRisk, jsRound, featuresOneViolation,
    studentFeaturesOfStats, hlt]

/- ----- C6 ----- -/

/-- C6: for every feature bundle, whatever the magnitude of its inputs, the
score of `calculateRiskScore` equals the nine weighted components plus the
un-reweighted calendar `riskModifier`, rounded and clamped to [0,100]; the
score always lies in [0,100]; and the category is HIGH iff score ≥ 60,
MEDIUM iff 30 ≤ score < 60, and LOW iff score < 30. -/
theorem C6_score_clamp_category (f : Features) :
    (calculateRiskScore f).score
      = max 0 (min 100 (jsRound (
          attendanceRisk f * WEIGHTS.attendance + reliabilityRisk f * WEIGHTS.reliability
          + violationsRisk f * WEIGHTS.violations + frequencyRisk f * WEIGHTS.frequency
          + historyRisk f * WEIGHTS.history + calendarConflictRisk f * WEIGHTS.calendarConflict
          + durationRisk f * WEIGHTS.duration + leaveTypeRisk f * WEIGHTS.leaveType
          + timingRisk f * WEIGHTS.timing + f.calendar.riskModifier))) ∧
    0 ≤ (calculateRiskScore f).score ∧ (calculateRiskScore f).score ≤ 100 ∧
    ((calculateRiskScore f).category = "HIGH" ↔ 60 ≤ (calculateRiskScore f).score) ∧
    ((calculateRiskScore f).category = "MEDIUM" ↔
      30 ≤ (calculateRiskScore f).score ∧ (calculateRiskScore f).score < 60) ∧
    ((calculateRiskScore f).category = "LOW" ↔ (calculateRiskScore f).score < 30) := by
  have hscore : (calculateRiskScore f).score = max 0 (min 100 (jsRound (rawTotalScore f))) := rfl
  have hcat : (calculateRiskScore f).category =
      if 60 ≤ (calculateRiskScore f).score then "HIGH"
      else if 30 ≤ (calculateRiskScore f).score then "MEDIUM" else "LOW" := rfl
  refine ⟨rfl, ?_, ?_, ?_, ?_, ?_⟩
  · rw [hscore]; omega
  · rw [hscore]; omega
  · rw [hcat]; split_ifs with h1 h2 <;> simp_all
  · rw [hcat]; split_ifs with h1 h2 <;> simp_all
  · rw [hcat]; split_ifs with h1 h2 <;> simp_all
    all_goals omega

/- ----- C7 ----- -/

/-- C7: for every student history, the recomputed `attendancePercentage` is
`round(presentDays/totalDays*100)` when there is at least one attendance
record and 100 otherwise, and the recomputed `returnReliabilityScore` is
`round(onTimeReturns/(onTimeReturns+lateReturns)*100)` over the leaves with
a known return outcome, defaulting to 100 when no completed leave exists. -/
theorem C7_aggregate_formulas (s : StudentStatsRec) (attendance : List AttendanceRecord)
    (leaves : List LeaveRecord) (thisMonthStart semesterStart : ℤ) :
    (updateAttendanceStats s attendance).attendancePercentage =
      (if 1 ≤ attendance.length then
        (((jsRound ((((attendance.filter fun a => a.status = "PRESENT").length : ℚ)
            / (attendance.length : ℚ)) * 100)) : ℤ) : ℚ)
       else 100) ∧
    (updateLeaveStats s leaves thisMonthStart semesterStart).returnReliabilityScore =
      (let completed := leaves.filter fun l => l.returnedOnTime ≠ none
       let onTime := (completed.filter fun l => l.returnedOnTime = some true).length
       let late := (completed.filter fun l => ¬ (l.returnedOnTime = some true)).length
       if 1 ≤ onTime + late then
         (((jsRound (((onTime : ℚ) / ((onTime + late : ℕ) : ℚ)) * 100)) : ℤ) : ℚ)
       else 100) := by
  constructor
  · simp only [updateAttendanceStats]
    split_ifs with h1 h2 <;> first | rfl | omega
  · simp only [updateLeaveStats]
    have hsplit := length_filter_split (fun l : LeaveRecord => l.returnedOnTime = some true)
      (leaves.filter fun l => l.returnedOnTime ≠ none)
    rw [hsplit]
    split_ifs with h1 h2 <;> first | rfl | omega

/- ----- C8 ----- -/

/-- C8: for every student with zero attendance records and zero leave
records, both the initialization defaults of the `StudentStats` schema and
the full recomputation pipeline (attendance pass, leave pass, overall-risk
pass) produce attendancePercentage 100, returnReliabilityScore 100,
overallRiskScore 0 and riskCategory LOW. -/
theorem C8_zero_history_defaults (s : StudentStatsRec) (thisMonthStart semesterStart : ℤ) :
    (updateLeaveStats (updateAttendanceStats s []) [] thisMonthStart semesterStart).attendancePercentage
      = 100 ∧
    (updateLeaveStats (updateAttendanceStats s []) [] thisMonthStart semesterStart).returnReliabilityScore
      = 100 ∧
    (calculateOverallRisk (updateLeaveStats (updateAttendanceStats s []) [] thisMonthStart semesterStart)).riskScore
      = 0 ∧
    (calculateOverallRisk (updateLeaveStats (updateAttendanceStats s []) [] thisMonthStart semesterStart)).riskCategory
      = "LOW" ∧
    (applyOverallRisk (updateLeaveStats (updateAttendanceStats s []) [] thisMonthStart semesterStart)).overallRiskScore
      = 0 ∧
    (applyOverallRisk (updateLeaveStats (updateAttendanceStats s []) [] thisMonthStart semesterStart)).riskCategory
      = "LOW" ∧
    defaultStudentStats.attendancePercentage = 100 ∧
    defaultStudentStats.returnReliabilityScore = 100 ∧
    defaultStudentStats.overallRiskScore = 0 ∧
    defaultStudentStats.riskCategory = "LOW" := by
  norm_num [updateAttendanceStats, updateLeaveStats, calculateOverallRisk, applyOverallRisk,
    defaultStudentStats, jsRound, sortBy, keysInOrder, sumGaps, leaveDays]

/- ----- calendar-loop helper lemmas ----- -/

theorem applyEvent_canApply (a : CalendarAnalysis) (e : CalendarEvent) :
    (applyEvent a e).canApply = (if e.leavePolicy = "BLOCKED" then false else a.canApply) := by
  simp only [applyEvent]
  split_ifs <;> rfl

theorem foldl_canApply_false (events : List CalendarEvent) :
    ∀ a : CalendarAnalysis, a.canApply = false →
      (events.foldl applyEvent a).canApply = false := by
  induction events with
  | nil => intro a h; simpa using h
  | cons e es ih =>
    intro a h
    simp only [List.foldl_cons]
    refine ih _ ?_
    rw [applyEvent_canApply, h]
    split_ifs <;> rfl

theorem foldl_blocked_canApply (events : List CalendarEvent) :
    ∀ a : CalendarAnalysis, (∃ e ∈ events, e.leavePolicy = "BLOCKED") →
      (events.foldl applyEvent a).canApply = false := by
  induction events with
  | nil =>
    rintro a ⟨e, he, -⟩
    simp at he
  | cons e es ih =>
    rintro a ⟨e2, he2, hpol⟩
    simp only [List.foldl_cons]
    rcases List.mem_cons.mp he2 with rfl | hmem
    · exact foldl_canApply_false es _ (by rw [applyEvent_canApply, if_pos hpol])
    · exact ih _ ⟨e2, hmem, hpol⟩

theorem applyEvent_rec_nonflagged (a : CalendarAnalysis) (e : CalendarEvent)
    (hrec : a.recommendation = "REJECT") (hne : e.leavePolicy ≠ "FLAGGED") :
    (applyEvent a e).recommendation = "REJECT" := by
  simp only [applyEvent]
  split_ifs <;> simp_all

theorem foldl_rec_reject (events : List CalendarEvent) :
    ∀ a : CalendarAnalysis, a.recommendation = "REJECT" →
      (∀ e ∈ events, e.leavePolicy ≠ "FLAGGED") →
      (events.foldl applyEvent a).recommendation = "REJECT" := by
  induction events with
  | nil => intro a h _; simpa using h
  | cons e es ih =>
    intro a h hall
    simp only [List.foldl_cons]
    refine ih _ ?_ (fun e2 he2 => hall e2 (List.mem_cons_of_mem _ he2))
    exact applyEvent_rec_nonflagged a e h (hall e (List.mem_cons_self _ _))

theorem applyEvent_score_100 (a : CalendarAnalysis) (e : CalendarEvent)
    (h : a.calendarScore = 100) (hne : e.leavePolicy ≠ "ENCOURAGED") :
    (applyEvent a e).calendarScore = 100 := by
  simp only [applyEvent]
  split_ifs <;> simp_all <;> norm_num [max_def]

theorem foldl_score_100 (events : List CalendarEvent) :
    ∀ a : CalendarAnalysis, a.calendarScore = 100 →
      (∀ e ∈ events, e.leavePolicy ≠ "ENCOURAGED") →
      (events.foldl applyEvent a).calendarScore = 100 := by
  induction events with
  | nil => intro a h _; simpa using h
  | cons e es ih =>
    intro a h hall
    simp only [List.foldl_cons]
    refine ih _ ?_ (fun e2 he2 => hall e2 (List.mem_cons_of_mem _ he2))
    exact applyEvent_score_100 a e h (hall e (List.mem_cons_self _ _))

theorem applyEvent_score_cases (a : CalendarAnalysis) (e : CalendarEvent) :
    (applyEvent a e).calendarScore = 100 ∨
    (applyEvent a e).calendarScore = max a.calendarScore 70 ∨
    (applyEvent a e).calendarScore = max a.calendarScore 40 ∨
    (applyEvent a e).calendarScore = min a.calendarScore 10 ∨
    (applyEvent a e).calendarScore = a.calendarScore := by
  simp only [applyEvent]
  split_ifs <;> simp

theorem foldl_score_values (events : List CalendarEvent) :
    ∀ a : CalendarAnalysis,
      (a.calendarScore = 0 ∨ a.calendarScore = 10 ∨ a.calendarScore = 40 ∨
        a.calendarScore = 70 ∨ a.calendarScore = 100) →
      ((events.foldl applyEvent a).calendarScore = 0 ∨
       (events.foldl applyEvent a).calendarScore = 10 ∨
       (events.foldl applyEvent a).calendarScore = 40 ∨
       (events.foldl applyEvent a).calendarScore = 70 ∨
       (events.foldl applyEvent a).calendarScore = 100) := by
  induction events with
  | nil => intro a h; simpa using h
  | cons e es ih =>
    intro a h
    simp only [List.foldl_cons]
    refine ih _ ?_
    rcases applyEvent_score_cases a e with h1 | h1 | h1 | h1 | h1 <;>
      rcases h with h2 | h2 | h2 | h2 | h2 <;>
      simp only [h1, h2] <;> norm_num [max_def, min_def]

theorem applyEvent_score_discouraged (a : CalendarAnalysis) (e : CalendarEvent)
    (h : a.calendarScore ≤ 40) (hd : e.leavePolicy = "DISCOURAGED") :
    (applyEvent a e).calendarScore ≤ 40 := by
  simpa [applyEvent, hd, max_le_iff] using h

theorem foldl_score_le_40 (events : List CalendarEvent) :
    ∀ a : CalendarAnalysis, a.calendarScore ≤ 40 →
      (∀ e ∈ events, e.leavePolicy = "DISCOURAGED") →
      (events.foldl applyEvent a).calendarScore ≤ 40 := by
  induction events with
  | nil => intro a h _; simpa using h
  | cons e es ih =>
    intro a h hall
    simp only [List.foldl_cons]
    refine ih _ ?_ (fun e2 he2 => hall e2 (List.mem_cons_of_mem _ he2))
    exact applyEvent_score_discouraged a e h (hall e (List.mem_cons_self _ _))

theorem finishAnalysis_canApply (a : CalendarAnalysis) :
    (finishAnalysis a).canApply = a.canApply := by
  simp only [finishAnalysis]
  split_ifs <;> rfl

theorem finishAnalysis_calendarScore (a : CalendarAnalysis) :
    (finishAnalysis a).calendarScore = a.calendarScore := by
  simp only [finishAnalysis]
  split_ifs <;> rfl

theorem finishAnalysis_rec_of_not_canApply (a : CalendarAnalysis) (h : a.canApply = false) :
    (finishAnalysis a).recommendation = a.recommendation := by
  simp only [finishAnalysis]
  split_ifs with h1 h2 <;> simp_all

theorem mem_insertBy {α : Type} (lt : α → α → Bool) (x a : α) :
    ∀ l : List α, a ∈ insertBy lt x l ↔ a = x ∨ a ∈ l
  | [] => by simp [insertBy]
  | y :: ys => by
    simp only [insertBy]
    split_ifs with h
    · simp only [List.mem_cons]
    · simp only [List.mem_cons, mem_insertBy lt x a ys]
      tauto

theorem mem_sortBy {α : Type} (lt : α → α → Bool) (a : α) :
    ∀ l : List α, a ∈ sortBy lt l ↔ a ∈ l
  | [] => Iff.rfl
  | x :: xs => by
    simp [sortBy, mem_insertBy, mem_sortBy lt a xs]

theorem relevantEvents_subset (events : List CalendarEvent) (fromDate toDate : ℤ)
    (student : StudentScope) (e : CalendarEvent)
    (h : e ∈ relevantEvents events fromDate toDate student) : e ∈ events := by
  rw [relevantEvents] at h
  have h2 := List.mem_of_mem_filter h
  rw [getEventsInRange, mem_sortBy] at h2
  exact List.mem_of_mem_filter h2

/- ----- C3 ----- -/

/-- C3 counterexample: run the event loop on a BLOCKED event followed by a
FLAGGED and an ENCOURAGED event (all overlapping the request window). The
final analysis still has canApply = false, but its recommendation is FLAG
(the later FLAGGED event overwrote REJECT) and its calendarScore is 10 (the
later ENCOURAGED event lowered 100), refuting the claimed terminality. -/
theorem C3_blocked_counterexample :
    analysisBFE.canApply = false ∧
    analysisBFE.recommendation = "FLAG" ∧
    analysisBFE.calendarScore = 10 ∧
    ¬ (analysisBFE.calendarScore = 100 ∧ analysisBFE.recommendation = "REJECT") := by
  have h : analysisBFE =
      analyzeCore [blockedEvent, flaggedEvent, encouragedEvent] := by
    norm_num [analysisBFE, analyzeLeaveDates, relevantEvents, getEventsInRange,
      sortBy, insertBy, eventBefore, eventAppliesTo, noScope, blockedEvent, flaggedEvent,
      encouragedEvent, msPerDay]
  rw [h]
  simp [analyzeCore, processEvents, applyEvent, initialAnalysis, finishAnalysis,
    blockedEvent, flaggedEvent, encouragedEvent, max_def, min_def]
  norm_num

/-- C3 (amended): applying a BLOCKED event pins canApply to false for the
rest of the loop, and the analysis keeps recommendation REJECT and
calendarScore 100 as long as no FLAGGED and no ENCOURAGED event is
processed afterwards; but the step is not terminal: a later FLAGGED event
changes the recommendation to FLAG and a later ENCOURAGED event lowers the
calendarScore (as the counterexample shows). -/
theorem C3_blocked_amended (pre post : List CalendarEvent) (e : CalendarEvent)
    (hB : e.leavePolicy = "BLOCKED") :
    (analyzeCore (pre ++ e :: post)).canApply = false ∧
    ((∀ e2 ∈ post, e2.leavePolicy ≠ "FLAGGED") →
      (analyzeCore (pre ++ e :: post)).recommendation = "REJECT") ∧
    ((∀ e2 ∈ post, e2.leavePolicy ≠ "ENCOURAGED") →
      (analyzeCore (pre ++ e :: post)).calendarScore = 100) := by
  have hsplit : processEvents (pre ++ e :: post)
      = post.foldl applyEvent (applyEvent (pre.foldl applyEvent initialAnalysis) e) := by
    simp [processEvents, List.foldl_append]
  have hca : (processEvents (pre ++ e :: post)).canApply = false := by
    rw [hsplit]
    exact foldl_canApply_false post _ (by rw [applyEvent_canApply, if_pos hB])
  refine ⟨?_, ?_, ?_⟩
  · rw [analyzeCore, finishAnalysis_canApply]
    exact hca
  · intro hall
    rw [analyzeCore, finishAnalysis_rec_of_not_canApply _ hca, hsplit]
    refine foldl_rec_reject post _ ?_ hall
    simp [applyEvent, hB]
  · intro hall
    rw [analyzeCore, finishAnalysis_calendarScore, hsplit]
    refine foldl_score_100 post _ ?_ hall
    simp [applyEvent, hB]

theorem C3_blocked_amended_witness :
    (analyzeCore ([] ++ blockedEvent :: [discouragedEvent])).canApply = false ∧
    (analyzeCore ([] ++ blockedEvent :: [discouragedEvent])).recommendation = "REJECT" ∧
    (analyzeCore ([] ++ blockedEvent :: [discouragedEvent])).calendarScore = 100 := by
  obtain ⟨h1, h2, h3⟩ :=
    C3_blocked_amended [] [discouragedEvent] blockedEvent (by rfl)
  exact ⟨h1, h2 (by simp [discouragedEvent]), h3 (by simp [discouragedEvent])⟩

/- ----- C4 ----- -/

/-- C4: the calendar veto takes precedence over the student's risk profile.
Whenever the calendar slice of the feature bundle has canApply = false,
`generateDecision` returns REJECT for every risk score and every
confidence; in particular this holds for the features extracted from any
`analyzeLeaveDates` run in which some applicable event is BLOCKED. -/
theorem C4_calendar_veto :
    (∀ (riskScore : ℤ) (conf : ℚ) (f : Features), f.calendar.canApply = false →
      (generateDecision riskScore conf f).action = "REJECT") ∧
    (∀ (riskScore : ℤ) (conf : ℚ) (events : List CalendarEvent) (fromDate toDate : ℤ)
        (student : StudentScope) (sf : StudentFeatures) (rf : RequestFeatures)
        (pf : PatternFeatures),
      (∃ e ∈ relevantEvents events fromDate toDate student, e.leavePolicy = "BLOCKED") →
      (generateDecision riskScore conf
        (Features.mk sf
          (calendarFeaturesOfAnalysis (analyzeLeaveDates events fromDate toDate student))
          rf pf)).action = "REJECT") := by
  constructor
  · intro rs conf f h
    simp [generateDecision, h]
  · intro rs conf events fromDate toDate student sf rf pf hex
    have hca : (analyzeLeaveDates events fromDate toDate student).canApply = false := by
      rw [analyzeLeaveDates, analyzeCore, finishAnalysis_canApply, processEvents]
      exact foldl_blocked_canApply _ _ hex
    simp [generateDecision, calendarFeaturesOfAnalysis, hca]

theorem C4_calendar_veto_witness :
    (generateDecision 0 1 featuresVeto).action = "REJECT" ∧
    (generateDecision 0 1 (Features.mk featuresScenario.student
      (calendarFeaturesOfAnalysis (analyzeLeaveDates [blockedEvent] 0 (3 * msPerDay) noScope))
      featuresScenario.request featuresScenario.patterns)).action = "REJECT" := by
  constructor
  · exact C4_calendar_veto.1 0 1 featuresVeto (by rfl)
  · refine C4_calendar_veto.2 0 1 [blockedEvent] 0 (3 * msPerDay) noScope _ _ _ ?_
    refine ⟨blockedEvent, ?_, by rfl⟩
    norm_num [relevantEvents, getEventsInRange, sortBy, insertBy, eventBefore,
      eventAppliesTo, noScope, blockedEvent, msPerDay]

/- ----- C10 ----- -/

/-- C10: for every database state, request window and student scope, the
calendarScore returned by `analyzeLeaveDates` is one of {0, 10, 40, 70,
100}; in particular it lies in [0,100], and when every event is
DISCOURAGED the score can never exceed the >50 FLAG threshold. -/
theorem C10_calendarScore_membership (events : List CalendarEvent) (fromDate toDate : ℤ)
    (student : StudentScope) :
    ((analyzeLeaveDates events fromDate toDate student).calendarScore = 0 ∨
     (analyzeLeaveDates events fromDate toDate student).calendarScore = 10 ∨
     (analyzeLeaveDates events fromDate toDate student).calendarScore = 40 ∨
     (analyzeLeaveDates events fromDate toDate student).calendarScore = 70 ∨
     (analyzeLeaveDates events fromDate toDate student).calendarScore = 100) ∧
    0 ≤ (analyzeLeaveDates events fromDate toDate student).calendarScore ∧
    (analyzeLeaveDates events fromDate toDate student).calendarScore ≤ 100 ∧
    ((∀ e ∈ events, e.leavePolicy = "DISCOURAGED") →
      (analyzeLeaveDates events fromDate toDate student).calendarScore ≤ 50) := by
  have hmem : (analyzeLeaveDates events fromDate toDate student).calendarScore = 0 ∨
      (analyzeLeaveDates events fromDate toDate student).calendarScore = 10 ∨
      (analyzeLeaveDates events fromDate toDate student).calendarScore = 40 ∨
      (analyzeLeaveDates events fromDate toDate student).calendarScore = 70 ∨
      (analyzeLeaveDates events fromDate toDate student).calendarScore = 100 := by
    rw [analyzeLeaveDates, analyzeCore, finishAnalysis_calendarScore, processEvents]
    exact foldl_score_values _ initialAnalysis (by norm_num [initialAnalysis])
  refine ⟨hmem, ?_, ?_, ?_⟩
  · rcases hmem with h | h | h | h | h <;> rw [h] <;> norm_num
  · rcases hmem with h | h | h | h | h <;> rw [h] <;> norm_num
  · intro hall
    rw [analyzeLeaveDates, analyzeCore, finishAnalysis_calendarScore, processEvents]
    have h40 := foldl_score_le_40 (relevantEvents events fromDate toDate student)
      initialAnalysis (by norm_num [initialAnalysis])
      (fun e he => hall e (relevantEvents_subset _ _ _ _ _ he))
    linarith

theorem C10_calendarScore_membership_witness :
    (analyzeLeaveDates [discouragedEvent] 0 (3 * msPerDay) noScope).calendarScore ≤ 50 := by
  refine (C10_calendarScore_membership [discouragedEvent] 0 (3 * msPerDay) noScope).2.2.2 ?_
  intro e he
  have : e = discouragedEvent := by simpa using he
  rw [this]
  rfl

/- ----- C9 ----- -/

theorem half_le_iff (n w : ℕ) : ((w : ℚ) ≥ (n : ℚ) * (5/10)) ↔ n ≤ 2 * w := by
  rw [ge_iff_le]
  constructor
  · intro h
    have h2 : (n : ℚ) ≤ ((2 * w : ℕ) : ℚ) := by push_cast; linarith
    exact_mod_cast h2
  · intro h
    have h2 : ((n : ℕ) : ℚ) ≤ ((2 * w : ℕ) : ℚ) := by exact_mod_cast h
    push_cast at h2
    linarith

theorem we_not_mem_dc (leaves : List LeaveRecord) :
    weekendExtensionPattern ∉ dcPatternList leaves := by
  rw [dcPatternList]
  split_ifs <;> simp [weekendExtensionPattern]

theorem we_not_mem_inc (now : ℤ) (leaves : List LeaveRecord) :
    weekendExtensionPattern ∉ incPatternList now leaves := by
  rw [incPatternList]
  split_ifs <;> simp [weekendExtensionPattern]

theorem we_not_mem_btb (leaves : List LeaveRecord) :
    weekendExtensionPattern ∉ btbPatternList leaves := by
  rw [btbPatternList]
  split_ifs <;> simp [weekendExtensionPattern]

theorem we_mem_wePatternList (leaves : List LeaveRecord) :
    weekendExtensionPattern ∈ wePatternList leaves ↔
      (3 ≤ (weekendExtenders leaves).length ∧
        ((weekendExtenders leaves).length : ℚ) ≥ (leaves.length : ℚ) * (5/10)) := by
  rw [wePatternList]
  split_ifs with h <;> simp [h]

/-- C9: the WEEKEND_EXTENSION pattern (severity MEDIUM) is reported by
`detectPatterns` exactly when at least 3 leaves of the sample start on a
Monday or Friday and those leaves make up at least 50% of the sample; in
particular every sample of 5 leaves all starting on a Friday or a Monday
triggers it. -/
theorem C9_weekend_extension (now : ℤ) (leaves : List LeaveRecord) :
    (weekendExtensionPattern ∈ (detectPatterns now leaves).detected ↔
      3 ≤ (weekendExtenders leaves).length ∧
        leaves.length ≤ 2 * (weekendExtenders leaves).length) ∧
    (leaves.length = 5 →
      (∀ l ∈ leaves, jsGetDay l.fromDateTime = 1 ∨ jsGetDay l.fromDateTime = 5) →
      weekendExtensionPattern ∈ (detectPatterns now leaves).detected) := by
  have hle : (weekendExtenders leaves).length ≤ leaves.length :=
    List.length_filter_le _ _
  have hiff : weekendExtensionPattern ∈ (detectPatterns now leaves).detected ↔
      3 ≤ (weekendExtenders leaves).length ∧
        leaves.length ≤ 2 * (weekendExtenders leaves).length := by
    rw [detectPatterns]
    split_ifs with hlen
    · refine iff_of_false (by simp) ?_
      rintro ⟨h3, -⟩
      omega
    · show weekendExtensionPattern ∈ detectedList now leaves ↔ _
      rw [detectedList]
      simp only [List.mem_append, we_mem_wePatternList, half_le_iff]
      simp [we_not_mem_dc leaves, we_not_mem_inc now leaves, we_not_mem_btb leaves]
  refine ⟨hiff, fun h5 hall => ?_⟩
  have hw : weekendExtenders leaves = leaves := by
    rw [weekendExtenders]
    apply List.filter_eq_self.mpr
    intro a ha
    simpa using hall a ha
  refine hiff.mpr ⟨?_, ?_⟩
  · rw [hw, h5]
    norm_num
  · rw [hw, h5]
    norm_num

theorem C9_weekend_extension_witness :
    weekendExtensionPattern ∈ (detectPatterns 0 fiveWeekendLeaves).detected := by
  refine (C9_weekend_extension 0 fiveWeekendLeaves).2 (by rfl) ?_
  intro l hl
  have h := hl
  fin_cases h <;> decide
